import Mathlib

/-!
Shallow embedding of the GPIO button/LED drivers (GPIO_control repository).

The button driver (`gpio_button`) keeps global state: `press_count`,
`button_pressed`, `current_led_state`, three LED GPIO lines, a debounce
timestamp `last_irq_time`, a retriggerable one-shot timer `press_timer`,
and one unit of deferred work `button_work`.  We model this as a record
`DriverState`, plus a ghost history field `processed_log` recording the
`press_count` value each execution of the work handler processed (pure
instrumentation; no source behaviour depends on it).

Time is modelled as a natural number of milliseconds (the source converts
ms constants to jiffies with `msecs_to_jiffies`; `time_before(a, b)` is
`a < b` for in-range values).  `last_irq_time` starts at 0, matching the
source's `static unsigned long last_irq_time = 0`.

LED writes (`gpiod_set_value`) are modelled as an explicit write trace —
a list of `(index, value)` pairs — so claims about the *order* of output
writes can be stated; `applyWrites` folds a trace into a pin state.
-/

/-- Debounce window in ms (`DEBOUNCE_TIME_MS` in the source). -/
def DEBOUNCE_TIME_MS : Nat := 50

/-- Multi-press timeout in ms (`MULTI_PRESS_TIMEOUT_MS` in the source). -/
def MULTI_PRESS_TIMEOUT_MS : Nat := 1000

/-- The three LED output lines (GPIO pins), written but never read back. -/
structure LedPins where
  led0 : Bool
  led1 : Bool
  led2 : Bool
deriving DecidableEq

/-- All three LED lines low. -/
def allOffPins : LedPins := ⟨false, false, false⟩

/-- A single `gpiod_set_value(led_gpios[i], v)` call: pin index and value. -/
abbrev LedWrite := Nat × Bool

/-- Apply one GPIO write to the pin state (indices ≥ 3 have no pin). -/
def applyWrite (p : LedPins) (w : LedWrite) : LedPins :=
  if w.1 = 0 then { p with led0 := w.2 }
  else if w.1 = 1 then { p with led1 := w.2 }
  else if w.1 = 2 then { p with led2 := w.2 }
  else p

/-- Apply a trace of GPIO writes in order. -/
def applyWrites (p : LedPins) (ws : List LedWrite) : LedPins :=
  ws.foldl applyWrite p

/-- Write trace of `turn_off_all_leds`: sets pins 0,1,2 low in order. -/
def turn_off_all_writes : List LedWrite := [(0, false), (1, false), (2, false)]

/-- Write trace of `turn_on_all_leds`: sets pins 0,1,2 high in order. -/
def turn_on_all_writes : List LedWrite := [(0, true), (1, true), (2, true)]

/-- Write trace of `control_led(i)`: for a valid index it first performs the
`turn_off_all_leds` trace, then sets pin `i` high; out-of-range indices
write nothing (the source guards `led_index >= 0 && led_index < 3`). -/
def control_led_writes (i : Nat) : List LedWrite :=
  if i < 3 then turn_off_all_writes ++ [(i, true)] else []

/-- Global state of the button driver. `timer_armed`/`timer_deadline` model
`press_timer` (one-shot, retriggerable via `mod_timer`); `work_pending`
models the queued-but-not-yet-run bit of `button_work`; `processed_log` is
ghost history of the counts processed by `button_work_handler`. -/
structure DriverState where
  press_count : Nat
  button_pressed : Bool
  current_led_state : Nat
  leds : LedPins
  last_irq_time : Nat
  timer_armed : Bool
  timer_deadline : Nat
  work_pending : Bool
  processed_log : List Nat
deriving DecidableEq

/-- Driver state right after a successful probe: counters zero, timer idle,
no work pending, all LEDs switched off (`turn_off_all_leds()` at the end of
`button_probe`). -/
def initState : DriverState :=
  { press_count := 0
    button_pressed := false
    current_led_state := 0
    leds := allOffPins
    last_irq_time := 0
    timer_armed := false
    timer_deadline := 0
    work_pending := false
    processed_log := [] }

/-- Write trace the work handler emits for a given `press_count` value:
the `switch` in `button_work_handler` (1 → `control_led(0)`,
2 → `control_led(1)`, 3 → `control_led(2)`, 4 → `turn_on_all_leds`,
5 and default → `turn_off_all_leds`). -/
def button_work_writes (n : Nat) : List LedWrite :=
  match n with
  | 1 => control_led_writes 0
  | 2 => control_led_writes 1
  | 3 => control_led_writes 2
  | 4 => turn_on_all_writes
  | _ => turn_off_all_writes

/-- `current_led_state` value the work handler records for a given
`press_count` value. -/
def button_work_state (n : Nat) : Nat :=
  match n with
  | 1 => 1
  | 2 => 2
  | 3 => 3
  | 4 => 4
  | _ => 0

/-- The actuation part of `button_work_handler`: the `switch` on a count
`n`, setting `current_led_state` and performing the LED writes. -/
def button_work_actuate (n : Nat) (s : DriverState) : DriverState :=
  { s with current_led_state := button_work_state n
           leds := applyWrites s.leds (button_work_writes n) }

/-- One execution of `button_work_handler`: actuates on the *current*
global `press_count`, then resets `press_count` to 0.  The ghost log
records the count that was processed. -/
def button_work_handler_step (s : DriverState) : DriverState :=
  let s1 := button_work_actuate s.press_count s
  { s1 with press_count := 0
            processed_log := s1.processed_log ++ [s.press_count] }

/-- `press_timer_callback`: schedules the work iff `press_count > 0`.
(The armed flag is cleared by the firing itself, in `stepEv`.) -/
def press_timer_callback_step (s : DriverState) : DriverState :=
  if 0 < s.press_count then { s with work_pending := true } else s

/-- The accepted-press path of `button_irq_handler` at event time `t`:
records `t` in `last_irq_time`, sets `button_pressed`, increments
`press_count`, and rearms the multi-press timer for
`t + MULTI_PRESS_TIMEOUT_MS` (`mod_timer`). -/
def button_irq_accept (s : DriverState) (t : Nat) : DriverState :=
  { s with last_irq_time := t
           button_pressed := true
           press_count := s.press_count + 1
           timer_armed := true
           timer_deadline := t + MULTI_PRESS_TIMEOUT_MS }

/-- `button_irq_handler` at event time `t`: rejects the event if `t` is
within `DEBOUNCE_TIME_MS` of the last accepted event
(`time_before(current_time, last_irq_time + msecs_to_jiffies(50))`);
otherwise takes the accept path, and if `press_count` has reached 5,
cancels the timer (`del_timer`) and schedules the work immediately. -/
def button_irq_step (s : DriverState) (t : Nat) : DriverState :=
  if t < s.last_irq_time + DEBOUNCE_TIME_MS then s
  else if 5 ≤ (button_irq_accept s t).press_count then
    { button_irq_accept s t with timer_armed := false, work_pending := true }
  else button_irq_accept s t

/-- Rendering of `current_led_state` in `button_read`. -/
def led_status_string (n : Nat) : String :=
  match n with
  | 0 => "All LEDs OFF"
  | 1 => "LED 0 (Green) ON"
  | 2 => "LED 1 (White) ON"
  | 3 => "LED 2 (Yellow) ON"
  | 4 => "All LEDs ON"
  | _ => "Unknown state"

/-- The status message `button_read` formats (`snprintf` format string
`"Button Status: %s\nPress Count: %d\nCurrent State: %s\n"`). -/
def renderStatusMsg (pressed : Bool) (count : Nat) (ledStr : String) : String :=
  "Button Status: " ++ (if pressed then "Pressed" else "Released") ++
  "\nPress Count: " ++ toString count ++ "\nCurrent State: " ++ ledStr ++ "\n"

/-- The complete status message `button_read` builds for a state. -/
def statusMsg (s : DriverState) : String :=
  renderStatusMsg s.button_pressed s.press_count
    (led_status_string s.current_led_state)

/-- `button_read`: at a non-zero offset returns 0 bytes and changes
nothing; otherwise formats the status message, rejects a too-small buffer
with `-EINVAL`, and on success returns the message and clears
`button_pressed` ("Reset after read").  Errors are negative errno values. -/
def button_read_fn (s : DriverState) (len : Nat) (offset : Nat) :
    Except Int String × DriverState :=
  if offset ≠ 0 then (Except.ok "", s)
  else if len < (statusMsg s).length then (Except.error (-22), s)
  else (Except.ok (statusMsg s), { s with button_pressed := false })

/-- `button_write`: a zero-length write fails with `-EFAULT` (the source's
`len < 1 || copy_from_user` guard); command `r` resets `press_count` and
`current_led_state` and turns all LEDs off; command `s` only logs; any
other byte fails with `-EINVAL` and changes nothing.  On success the
source returns `len`; we return `Unit`. -/
def button_write_fn (s : DriverState) (len : Nat) (cmd : Char) :
    Except Int Unit × DriverState :=
  if len < 1 then (Except.error (-14), s)
  else if cmd = 'r' then
    (Except.ok (), { s with press_count := 0
                            current_led_state := 0
                            leds := applyWrites s.leds turn_off_all_writes })
  else if cmd = 's' then (Except.ok (), s)
  else (Except.error (-22), s)

/-- Events the button driver reacts to: a button edge IRQ at time `t`, the
armed timer firing at its deadline `t`, the queued work running, and the
character-device `write`/`read` file operations. -/
inductive Ev where
  | irq (t : Nat)
  | tfire (t : Nat)
  | wrun
  | uwrite (len : Nat) (c : Char)
  | uread (len : Nat) (off : Nat)

/-- One driver step.  A `tfire` is a no-op unless the timer is armed with
that exact deadline (a cancelled or rearmed timer cannot fire); firing
disarms the one-shot timer and runs `press_timer_callback`.  A `wrun` is a
no-op unless work is pending; running clears the pending bit and executes
`button_work_handler`. -/
def stepEv (s : DriverState) : Ev → DriverState
  | Ev.irq t => button_irq_step s t
  | Ev.tfire t =>
      if s.timer_armed ∧ s.timer_deadline = t then
        press_timer_callback_step { s with timer_armed := false }
      else s
  | Ev.wrun =>
      if s.work_pending then
        button_work_handler_step { s with work_pending := false }
      else s
  | Ev.uwrite len c => (button_write_fn s len c).2
  | Ev.uread len off => (button_read_fn s len off).2

/-- Run a list of events from a state. -/
def runEvents (s : DriverState) (es : List Ev) : DriverState :=
  es.foldl stepEv s

/-- States reachable from the post-probe state under any event sequence. -/
inductive Reachable : DriverState → Prop where
  | init : Reachable initState
  | next : ∀ {s} (e : Ev), Reachable s → Reachable (stepEv s e)

/- ### LED driver (`led_driver.c`) — state needed for the invalid-command
claim about `led_write`. -/

/-- State of the LED character-device driver: its `led_state[3]` bookkeeping
array and the physical pins it writes. -/
structure LedDrvState where
  led_state : LedPins
  pins : LedPins
deriving DecidableEq

/-- Read slot `i` of a `LedPins` triple. -/
def pinGet (p : LedPins) (i : Nat) : Bool :=
  if i = 0 then p.led0 else if i = 1 then p.led1 else p.led2

/-- Set slot `i` of a `LedPins` triple. -/
def pinSet (p : LedPins) (i : Nat) (v : Bool) : LedPins :=
  applyWrite p (i, v)

/-- `led_write` for the device with minor index `idx`: `1` turns the LED
on, `0` off, `t` toggles the bookkeeping state and writes it to the pin;
a zero-length write fails with `-EFAULT`; any other command byte fails
with `-EINVAL` and changes nothing. -/
def led_write_fn (ls : LedDrvState) (idx : Nat) (len : Nat) (cmd : Char) :
    Except Int Unit × LedDrvState :=
  if len < 1 then (Except.error (-14), ls)
  else if cmd = '1' then
    (Except.ok (), { ls with led_state := pinSet ls.led_state idx true
                             pins := pinSet ls.pins idx true })
  else if cmd = '0' then
    (Except.ok (), { ls with led_state := pinSet ls.led_state idx false
                             pins := pinSet ls.pins idx false })
  else if cmd = 't' then
    let nv := !(pinGet ls.led_state idx)
    (Except.ok (), { ls with led_state := pinSet ls.led_state idx nv
                             pins := pinSet ls.pins idx nv })
  else (Except.error (-22), ls)

/- ### Spec-side definitions used for comparison (refinement claims). -/

/-- The LED pin configuration the spec's dispatch table (§4.4) expects
after `apply(n)`: exactly output `n-1` for n in 1..3, all on for 4, all
off otherwise. -/
def spec_expected_leds (n : Nat) : LedPins :=
  match n with
  | 1 => ⟨true, false, false⟩
  | 2 => ⟨false, true, false⟩
  | 3 => ⟨false, false, true⟩
  | 4 => ⟨true, true, true⟩
  | _ => ⟨false, false, false⟩

/-- The recorded actuator-state value the spec expects after `apply(n)`. -/
def spec_expected_state (n : Nat) : Nat :=
  match n with
  | 1 => 1
  | 2 => 2
  | 3 => 3
  | 4 => 4
  | _ => 0

/-- The debounce acceptance rule exactly as the spec's contract words it
(§4.1): accept iff `event_time - last_accepted_time ≥ DEBOUNCE_WINDOW` or
no prior accepted event exists. -/
def spec_debounce_accepts (lastAccepted : Option Nat) (t : Nat) : Bool :=
  match lastAccepted with
  | none => true
  | some l => DEBOUNCE_TIME_MS ≤ t - l

/-- A write trace "first sets every output to off": its leading run of
off-writes covers all three outputs. -/
def offPrefixComplete (ws : List LedWrite) : Bool :=
  let offs := ws.takeWhile (fun (w : LedWrite) => !w.2)
  offs.contains (0, false) && offs.contains (1, false) && offs.contains (2, false)

/-- At most one of the three LED lines is high. -/
def atMostOnePin (p : LedPins) : Bool :=
  !(p.led0 && p.led1) && !(p.led0 && p.led2) && !(p.led1 && p.led2)

/-- Normal form of the driver state while a gesture is accumulating:
`k` accepted presses, the last one at time `t`, timer armed for
`t + MULTI_PRESS_TIMEOUT_MS`; other fields as in the base state `s0`. -/
def gestureState (s0 : DriverState) (k : Nat) (t : Nat) : DriverState :=
  { s0 with press_count := k
            button_pressed := true
            last_irq_time := t
            timer_armed := true
            timer_deadline := t + MULTI_PRESS_TIMEOUT_MS }

/-- A debounce-rejected IRQ leaves the driver state unchanged. -/
theorem button_irq_step_reject (s : DriverState) (t : Nat)
    (h : t < s.last_irq_time + DEBOUNCE_TIME_MS) :
    button_irq_step s t = s := by
  unfold button_irq_step
  rw [if_pos h]

/-- The accept path increments `press_count` by one. -/
theorem button_irq_accept_press_count (s : DriverState) (t : Nat) :
    (button_irq_accept s t).press_count = s.press_count + 1 := rfl

/-- An accepted IRQ below the 5-press cap is exactly the accept path. -/
theorem button_irq_step_accept_small (s : DriverState) (t : Nat)
    (hacc : s.last_irq_time + DEBOUNCE_TIME_MS ≤ t)
    (hsmall : s.press_count + 1 < 5) :
    button_irq_step s t = button_irq_accept s t := by
  unfold button_irq_step
  rw [if_neg (by omega), if_neg (by rw [button_irq_accept_press_count]; omega)]

/-- An accepted IRQ reaching the 5-press cap takes the accept path, then
cancels the timer and schedules the work. -/
theorem button_irq_step_accept_cap (s : DriverState) (t : Nat)
    (hacc : s.last_irq_time + DEBOUNCE_TIME_MS ≤ t)
    (hcap : 5 ≤ s.press_count + 1) :
    button_irq_step s t =
      { button_irq_accept s t with timer_armed := false
                                   work_pending := true } := by
  unfold button_irq_step
  rw [if_neg (by omega), if_pos (by rw [button_irq_accept_press_count]; exact hcap)]

/-- C4: for every press count `n` and every starting state, the dispatch
handler's actuation drives the LED lines to the spec's table — output 0
only for n=1, output 1 only for n=2, output 2 only for n=3, all on for
n=4, all off for n=5 or any other value — and records the matching
`current_led_state`. -/
theorem C4_dispatch_mapping (n : Nat) (s : DriverState) :
    (button_work_actuate n s).leds = spec_expected_leds n ∧
    (button_work_actuate n s).current_led_state = spec_expected_state n := by
  obtain ⟨pc, bp, cls, ⟨a, b, c⟩, lt, ta, td, wp, log⟩ := s
  match n with
  | 0 => exact ⟨rfl, rfl⟩
  | 1 => exact ⟨rfl, rfl⟩
  | 2 => exact ⟨rfl, rfl⟩
  | 3 => exact ⟨rfl, rfl⟩
  | 4 => exact ⟨rfl, rfl⟩
  | m + 5 => exact ⟨rfl, rfl⟩

/-- C7: the dispatch handler is idempotent in its actuation effect — running
`button_work_handler` twice in a row with the same count `n` leaves the
same `current_led_state` and the same LED line states as running it once. -/
theorem C7_actuation_idempotent (n : Nat) (s : DriverState) :
    (button_work_handler_step
        { (button_work_handler_step { s with press_count := n }) with
          press_count := n }).leds =
      (button_work_handler_step { s with press_count := n }).leds ∧
    (button_work_handler_step
        { (button_work_handler_step { s with press_count := n }) with
          press_count := n }).current_led_state =
      (button_work_handler_step { s with press_count := n }).current_led_state := by
  obtain ⟨pc, bp, cls, ⟨a, b, c⟩, lt, ta, td, wp, log⟩ := s
  match n with
  | 0 => exact ⟨rfl, rfl⟩
  | 1 => exact ⟨rfl, rfl⟩
  | 2 => exact ⟨rfl, rfl⟩
  | 3 => exact ⟨rfl, rfl⟩
  | 4 => exact ⟨rfl, rfl⟩
  | m + 5 => exact ⟨rfl, rfl⟩

/-- C5 counterexample: the claim says every actuation applying `AllOn`
first sets every output to off; but the dispatch handler's n=4 actuation
is `turn_on_all_leds`, whose write trace contains no off-writes at all —
its leading off-run covers no output. -/
theorem C5_counterexample :
    button_work_writes 4 = turn_on_all_writes ∧
    offPrefixComplete (button_work_writes 4) = false ∧
    (∀ w ∈ button_work_writes 4, w.2 = true) := by decide

/-- C5 amended: the `Selected(i)` actuation (`control_led`) does write
off-first — its trace is exactly the all-off trace followed by the single
on-write of the target — while the `AllOn` actuation sets all outputs on
directly with no preceding off phase.  Consequently, for the mutually
exclusive states: starting from any pin state with at most one output
active, every intermediate point of a `control_led(i)` write sequence
still has at most one output active. -/
theorem C5_amended :
    (∀ i, i < 3 → control_led_writes i = turn_off_all_writes ++ [(i, true)] ∧
      offPrefixComplete (control_led_writes i) = true) ∧
    (∀ w ∈ turn_on_all_writes, w.2 = true) ∧
    (∀ i, i < 3 → ∀ a b c : Bool, atMostOnePin ⟨a, b, c⟩ = true →
      ∀ ps ∈ (control_led_writes i).inits,
        atMostOnePin (applyWrites ⟨a, b, c⟩ ps) = true) := by decide

/-- C5 witness: instantiation of the amended claim at `i = 2` from the
pin state with only output 1 high, at the prefix of length 2. -/
theorem C5_amended_witness :
    control_led_writes 2 = turn_off_all_writes ++ [(2, true)] ∧
    atMostOnePin (applyWrites ⟨false, true, false⟩
      ((control_led_writes 2).take 2)) = true :=
  ⟨(C5_amended.1 2 (by decide)).1,
   C5_amended.2.2 2 (by decide) false true false (by decide)
     ((control_led_writes 2).take 2) (by decide)⟩

/-- C3 counterexample: in the post-probe state no prior accepted event
exists, so the claim's contract accepts an event at time 10; the code
rejects it (it compares against `last_irq_time = 0`, so any event earlier
than tick 50 is discarded): the IRQ handler leaves the state unchanged and
`press_count` stays 0 instead of incrementing. -/
theorem C3_counterexample :
    spec_debounce_accepts none 10 = true ∧
    button_irq_step initState 10 = initState ∧
    (button_irq_step initState 10).press_count = 0 := by decide

/-- C3 amended: the filter accepts iff
`last_accepted_time + DEBOUNCE_WINDOW ≤ event_time`, where
`last_accepted_time` is initialised to 0 — an event within the first
`DEBOUNCE_WINDOW` ticks is rejected even though no prior accepted event
exists.  Acceptance increments `press_count` and updates
`last_accepted_time` to the event time; a rejected event leaves the whole
state unchanged (in particular `press_count` is not incremented). -/
theorem C3_amended (s : DriverState) (t : Nat) :
    ((button_irq_step s t).press_count = s.press_count + 1 ↔
      s.last_irq_time + DEBOUNCE_TIME_MS ≤ t) ∧
    (s.last_irq_time + DEBOUNCE_TIME_MS ≤ t →
      (button_irq_step s t).last_irq_time = t) ∧
    (t < s.last_irq_time + DEBOUNCE_TIME_MS → button_irq_step s t = s) := by
  by_cases h : t < s.last_irq_time + DEBOUNCE_TIME_MS
  · rw [button_irq_step_reject s t h]
    exact ⟨by constructor <;> (intro hx; omega), fun hx => by omega, fun _ => rfl⟩
  · refine ⟨?_, fun _ => ?_, fun hx => absurd hx h⟩ <;>
      rw [show button_irq_step s t =
            (if 5 ≤ (button_irq_accept s t).press_count then
              { button_irq_accept s t with timer_armed := false
                                           work_pending := true }
            else button_irq_accept s t) from by
        unfold button_irq_step; rw [if_neg h]]
    · constructor
      · intro _; omega
      · intro _; split <;> rfl
    · split <;> rfl

/-- C3 amended witness: concrete acceptance at `last_irq_time = 0`,
`t = 60` — press_count increments and the timestamp is recorded. -/
theorem C3_amended_witness :
    ((button_irq_step initState 60).press_count = initState.press_count + 1 ↔
      initState.last_irq_time + DEBOUNCE_TIME_MS ≤ 60) ∧
    (initState.last_irq_time + DEBOUNCE_TIME_MS ≤ 60 →
      (button_irq_step initState 60).last_irq_time = 60) ∧
    (60 < initState.last_irq_time + DEBOUNCE_TIME_MS →
      button_irq_step initState 60 = initState) :=
  C3_amended initState 60

/-- C9: a malformed command byte — anything but `r`/`s` on the button
device, anything but `1`/`0`/`t` on an LED device — makes the write
operation fail synchronously with `-EINVAL` and mutate nothing: the
returned state is exactly the input state (press count, actuator state,
pressed flag, pins all unchanged). -/
theorem C9_invalid_command :
    (∀ (s : DriverState) (len : Nat) (c : Char), 1 ≤ len →
      c ≠ 'r' → c ≠ 's' →
      button_write_fn s len c = (Except.error (-22), s)) ∧
    (∀ (ls : LedDrvState) (idx len : Nat) (c : Char), 1 ≤ len →
      c ≠ '1' → c ≠ '0' → c ≠ 't' →
      led_write_fn ls idx len c = (Except.error (-22), ls)) := by
  constructor
  · intro s len c hlen h1 h2
    unfold button_write_fn
    rw [if_neg (by omega), if_neg h1, if_neg h2]
  · intro ls idx len c hlen h1 h2 h3
    unfold led_write_fn
    rw [if_neg (by omega), if_neg h1, if_neg h2, if_neg h3]

/-- C9 witness: the byte `x` is rejected by both devices with `-EINVAL`
and no state change. -/
theorem C9_invalid_command_witness :
    button_write_fn initState 1 'x' = (Except.error (-22), initState) ∧
    led_write_fn ⟨allOffPins, allOffPins⟩ 0 1 'x' =
      (Except.error (-22), ⟨allOffPins, allOffPins⟩) :=
  ⟨C9_invalid_command.1 initState 1 'x' (by decide) (by decide) (by decide),
   C9_invalid_command.2 ⟨allOffPins, allOffPins⟩ 0 1 'x' (by decide)
     (by decide) (by decide) (by decide)⟩

/-- `turn_off_all_leds` drives every pin low, whatever the prior state. -/
theorem applyWrites_off_all (p : LedPins) :
    applyWrites p turn_off_all_writes = allOffPins := by
  obtain ⟨a, b, c⟩ := p
  rfl

/-- Running the work handler: actuation on the current count, count reset,
processed count logged. -/
theorem button_work_handler_step_eq (s : DriverState) :
    button_work_handler_step s =
      { s with current_led_state := button_work_state s.press_count
               leds := applyWrites s.leds (button_work_writes s.press_count)
               press_count := 0
               processed_log := s.processed_log ++ [s.press_count] } := rfl

/-- A `wrun` event with work pending runs the handler on the state with
the pending bit cleared. -/
theorem wrun_pending (s : DriverState) (h : s.work_pending = true) :
    stepEv s Ev.wrun = button_work_handler_step { s with work_pending := false } := by
  simp only [stepEv]
  rw [if_pos h]

/-- A `wrun` event with no work pending does nothing. -/
theorem wrun_not_pending (s : DriverState) (h : s.work_pending = false) :
    stepEv s Ev.wrun = s := by
  simp only [stepEv]
  rw [h]
  rfl

/-- A timer-fire event while the timer is not armed does nothing
(a cancelled or rearmed timer cannot fire). -/
theorem tfire_unarmed (s : DriverState) (u : Nat) (h : s.timer_armed = false) :
    stepEv s (Ev.tfire u) = s := by
  simp only [stepEv]
  rw [if_neg (fun hc => by rw [h] at hc; exact Bool.noConfusion hc.1)]

/-- The armed timer firing at its deadline disarms it and runs
`press_timer_callback`. -/
theorem tfire_armed (s : DriverState) (h : s.timer_armed = true) :
    stepEv s (Ev.tfire s.timer_deadline) =
      press_timer_callback_step { s with timer_armed := false } := by
  simp only [stepEv]
  rw [if_pos ⟨h, trivial⟩]

/-- `press_timer_callback` with a positive count schedules the work. -/
theorem callback_pos (s : DriverState) (h : 0 < s.press_count) :
    press_timer_callback_step s = { s with work_pending := true } := by
  unfold press_timer_callback_step
  rw [if_pos h]

/-- `press_timer_callback` with a zero count is a no-op. -/
theorem callback_zero (s : DriverState) (h : s.press_count = 0) :
    press_timer_callback_step s = s := by
  unfold press_timer_callback_step
  rw [if_neg (by omega)]

/-- First accepted press from an idle session: the accept path yields the
1-press gesture state. -/
theorem irq_from_idle (s0 : DriverState) (t : Nat) (hpc : s0.press_count = 0)
    (hacc : s0.last_irq_time + DEBOUNCE_TIME_MS ≤ t) :
    stepEv s0 (Ev.irq t) = gestureState s0 1 t := by
  show button_irq_step s0 t = gestureState s0 1 t
  rw [button_irq_step_accept_small s0 t hacc (by omega)]
  unfold button_irq_accept gestureState
  rw [hpc]

/-- An accepted press during accumulation, below the cap, advances the
gesture state. -/
theorem irq_from_gesture_small (s0 : DriverState) (k t u : Nat)
    (hsp : t + DEBOUNCE_TIME_MS ≤ u) (hk : k + 1 < 5) :
    stepEv (gestureState s0 k t) (Ev.irq u) = gestureState s0 (k + 1) u := by
  show button_irq_step (gestureState s0 k t) u = gestureState s0 (k + 1) u
  exact button_irq_step_accept_small (gestureState s0 k t) u hsp hk

/-- An accepted press reaching the cap: accept path, timer cancelled,
work scheduled. -/
theorem irq_from_gesture_cap (s0 : DriverState) (k t u : Nat)
    (hsp : t + DEBOUNCE_TIME_MS ≤ u) (hk : 5 ≤ k + 1) :
    stepEv (gestureState s0 k t) (Ev.irq u) =
      { gestureState s0 (k + 1) u with timer_armed := false
                                       work_pending := true } := by
  show button_irq_step (gestureState s0 k t) u = _
  exact button_irq_step_accept_cap (gestureState s0 k t) u hsp hk

/-- The reset command: `press_count` and `current_led_state` zeroed and
every LED line driven low, for any incoming state. -/
theorem button_write_reset (s : DriverState) (len : Nat) (hlen : 1 ≤ len) :
    button_write_fn s len 'r' =
      (Except.ok (), { s with press_count := 0
                              current_led_state := 0
                              leds := allOffPins }) := by
  unfold button_write_fn
  rw [if_neg (by omega), if_pos rfl, applyWrites_off_all]

/-- A timer firing against a session with zero accumulated presses never
schedules work and never changes the processed history. -/
theorem tfire_zero_count (s : DriverState) (u : Nat) (h : s.press_count = 0) :
    (stepEv s (Ev.tfire u)).work_pending = s.work_pending ∧
    (stepEv s (Ev.tfire u)).processed_log = s.processed_log := by
  simp only [stepEv]
  split
  · rw [callback_zero { s with timer_armed := false } h]
    exact ⟨rfl, rfl⟩
  · exact ⟨rfl, rfl⟩

/-- C6: the reset command, issued while a gesture is pending (any state
with no dispatch in flight), succeeds, zeroes `press_count`, sets the
recorded actuator state to 0 (all off) and drives every LED line low
immediately; and the previously armed deadline can never later produce a
dispatch — a timer fire at any time `u` after the reset leaves work
unscheduled and the processed history unchanged. -/
theorem C6_reset_clears_pending (s : DriverState) (len : Nat)
    (hlen : 1 ≤ len) (hwp : s.work_pending = false) :
    (button_write_fn s len 'r').1 = Except.ok () ∧
    (button_write_fn s len 'r').2.press_count = 0 ∧
    (button_write_fn s len 'r').2.current_led_state = 0 ∧
    (button_write_fn s len 'r').2.leds = allOffPins ∧
    (∀ u, (stepEv (button_write_fn s len 'r').2 (Ev.tfire u)).work_pending = false ∧
      (stepEv (button_write_fn s len 'r').2 (Ev.tfire u)).processed_log =
        s.processed_log) := by
  rw [button_write_reset s len hlen]
  refine ⟨rfl, rfl, rfl, rfl, fun u => ?_⟩
  have hz := tfire_zero_count
    { s with press_count := 0, current_led_state := 0, leds := allOffPins } u rfl
  exact ⟨by rw [hz.1]; exact hwp, hz.2⟩

/-- C6 witness: reset from the 3-press pending state (deadline armed for
tick 1300), then the old deadline fires — no dispatch results. -/
theorem C6_reset_clears_pending_witness :
    (button_write_fn (gestureState initState 3 300) 1 'r').1 = Except.ok () ∧
    (button_write_fn (gestureState initState 3 300) 1 'r').2.press_count = 0 ∧
    (button_write_fn (gestureState initState 3 300) 1 'r').2.current_led_state = 0 ∧
    (button_write_fn (gestureState initState 3 300) 1 'r').2.leds = allOffPins ∧
    (∀ u, (stepEv (button_write_fn (gestureState initState 3 300) 1 'r').2
        (Ev.tfire u)).work_pending = false ∧
      (stepEv (button_write_fn (gestureState initState 3 300) 1 'r').2
        (Ev.tfire u)).processed_log = (gestureState initState 3 300).processed_log) :=
  C6_reset_clears_pending (gestureState initState 3 300) 1 (by decide) rfl

/-- C8: a successful status query (offset 0, buffer large enough) on a
state whose recorded actuator value is in range returns the status
message — the actuator state rendered as one of the five fixed strings,
together with the pressed/released boolean and the raw press count — and
its only state effect is clearing the pressed-since-last-read flag:
`press_count`, `current_led_state` and the LED lines are untouched. -/
theorem C8_status_query (s : DriverState) (len : Nat)
    (hcls : s.current_led_state ≤ 4)
    (hlen : (statusMsg s).length ≤ len) :
    (led_status_string s.current_led_state = "All LEDs OFF" ∨
     led_status_string s.current_led_state = "LED 0 (Green) ON" ∨
     led_status_string s.current_led_state = "LED 1 (White) ON" ∨
     led_status_string s.current_led_state = "LED 2 (Yellow) ON" ∨
     led_status_string s.current_led_state = "All LEDs ON") ∧
    button_read_fn s len 0 =
      (Except.ok (renderStatusMsg s.button_pressed s.press_count
        (led_status_string s.current_led_state)),
       { s with button_pressed := false }) := by
  constructor
  · have h5 : ∀ n, n ≤ 4 →
        (led_status_string n = "All LEDs OFF" ∨
         led_status_string n = "LED 0 (Green) ON" ∨
         led_status_string n = "LED 1 (White) ON" ∨
         led_status_string n = "LED 2 (Yellow) ON" ∨
         led_status_string n = "All LEDs ON") := by decide
    exact h5 _ hcls
  · unfold button_read_fn
    rw [if_neg (by omega), if_neg (by omega)]
    exact rfl

/-- C8 witness: query on the post-probe state with a 100-byte buffer. -/
theorem C8_status_query_witness :
    (led_status_string initState.current_led_state = "All LEDs OFF" ∨
     led_status_string initState.current_led_state = "LED 0 (Green) ON" ∨
     led_status_string initState.current_led_state = "LED 1 (White) ON" ∨
     led_status_string initState.current_led_state = "LED 2 (Yellow) ON" ∨
     led_status_string initState.current_led_state = "All LEDs ON") ∧
    button_read_fn initState 100 0 =
      (Except.ok (renderStatusMsg initState.button_pressed initState.press_count
        (led_status_string initState.current_led_state)),
       { initState with button_pressed := false }) :=
  C8_status_query initState 100 (by decide) (by decide)

/-- The IRQ handler never touches `current_led_state`. -/
theorem button_irq_step_cls (s : DriverState) (t : Nat) :
    (button_irq_step s t).current_led_state = s.current_led_state := by
  unfold button_irq_step
  split
  · rfl
  · split <;> rfl

/-- Every value the work handler writes into `current_led_state` is ≤ 4. -/
theorem button_work_state_le (n : Nat) : button_work_state n ≤ 4 := by
  match n with
  | 0 => decide
  | 1 => decide
  | 2 => decide
  | 3 => decide
  | 4 => decide
  | m + 5 => exact Nat.zero_le 4

/-- Every driver event preserves `current_led_state ≤ 4`. -/
theorem stepEv_cls_le (s : DriverState) (e : Ev)
    (h : s.current_led_state ≤ 4) : (stepEv s e).current_led_state ≤ 4 := by
  cases e with
  | irq t =>
      rw [show stepEv s (Ev.irq t) = button_irq_step s t from rfl,
        button_irq_step_cls]
      exact h
  | tfire t =>
      simp only [stepEv]
      split
      · unfold press_timer_callback_step
        split
        · exact h
        · exact h
      · exact h
  | wrun =>
      simp only [stepEv]
      split
      · exact button_work_state_le _
      · exact h
  | uwrite len c =>
      simp only [stepEv]
      unfold button_write_fn
      split
      · exact h
      · split
        · exact Nat.zero_le 4
        · split
          · exact h
          · exact h
  | uread len off =>
      simp only [stepEv]
      unfold button_read_fn
      split
      · exact h
      · split
        · exact h
        · exact h

/-- C10: in every reachable driver state the recorded actuator value is
one of 0..4 — it starts at 0 and every writer assigns a constant in that
range — so the "Unknown state" rendering branch of the status query can
never be taken. -/
theorem C10_led_state_invariant (s : DriverState) (hr : Reachable s) :
    s.current_led_state ≤ 4 ∧
    led_status_string s.current_led_state ≠ "Unknown state" := by
  have hle : s.current_led_state ≤ 4 := by
    induction hr with
    | init => exact Nat.zero_le 4
    | next e _ ih => exact stepEv_cls_le _ e ih
  have h5 : ∀ n, n ≤ 4 → led_status_string n ≠ "Unknown state" := by decide
  exact ⟨hle, h5 _ hle⟩

/-- C10 witness: the invariant at the (reachable) post-probe state. -/
theorem C10_led_state_invariant_witness :
    initState.current_led_state ≤ 4 ∧
    led_status_string initState.current_led_state ≠ "Unknown state" :=
  C10_led_state_invariant initState Reachable.init

/-- C1 counterexample: presses at t=100..500 complete a gesture at the 5th
press (count 5, work scheduled), but `press_count` is not reset as part of
that completion; a 6th accepted press at t=600 arrives before the worker
runs, and the worker then processes 6 — not the count 5 the completed
gesture had. -/
theorem C1_counterexample :
    (runEvents initState
      [Ev.irq 100, Ev.irq 200, Ev.irq 300, Ev.irq 400, Ev.irq 500]).press_count
        = 5 ∧
    (runEvents initState
      [Ev.irq 100, Ev.irq 200, Ev.irq 300, Ev.irq 400, Ev.irq 500]).work_pending
        = true ∧
    (runEvents initState
      [Ev.irq 100, Ev.irq 200, Ev.irq 300, Ev.irq 400, Ev.irq 500, Ev.irq 600,
       Ev.wrun]).processed_log = [6] := by decide

/-- C1 amended: the completion transition only schedules the worker; the
worker reads the global `press_count` at its own execution time, processes
that value, and resets `press_count` to 0 after processing (not at
completion).  Hence the processed value equals the count at completion
exactly when no accepted press intervenes between completion and the
worker running. -/
theorem C1_amended (s : DriverState) (hwp : s.work_pending = true) :
    (stepEv s Ev.wrun).processed_log = s.processed_log ++ [s.press_count] ∧
    (stepEv s Ev.wrun).press_count = 0 ∧
    (stepEv s Ev.wrun).work_pending = false := by
  rw [wrun_pending s hwp]
  exact ⟨rfl, rfl, rfl⟩

/-- C1 amended witness: the worker run at a completed 5-press session
processes 5 and resets the count. -/
theorem C1_amended_witness :
    (stepEv { initState with press_count := 5, work_pending := true }
        Ev.wrun).processed_log =
      { initState with press_count := 5, work_pending := true }.processed_log ++
        [{ initState with press_count := 5, work_pending := true }.press_count] ∧
    (stepEv { initState with press_count := 5, work_pending := true }
        Ev.wrun).press_count = 0 ∧
    (stepEv { initState with press_count := 5, work_pending := true }
        Ev.wrun).work_pending = false :=
  C1_amended { initState with press_count := 5, work_pending := true } rfl

/-- C2: exactly one gesture-complete dispatch per accumulation cycle.
Cap path: from a quiescent state, five accepted presses each at least
`DEBOUNCE_TIME_MS` apart and each before the previous press's timeout
schedule nothing at presses 1–4; at the 5th press the count is 5, the
work is scheduled immediately, the armed deadline is cancelled (a timer
fire at any later time is a no-op), and the single pending work unit
processes exactly the value 5 once (a second worker run is a no-op).
Timeout path: an armed deadline firing with a positive count disarms the
timer and schedules exactly one dispatch of that count.  A deadline
firing with `press_count = 0` schedules nothing and processes nothing. -/
theorem C2_exactly_one_dispatch :
    (∀ (s0 : DriverState) (t1 t2 t3 t4 t5 : Nat),
      s0.press_count = 0 → s0.work_pending = false →
      s0.last_irq_time + DEBOUNCE_TIME_MS ≤ t1 →
      t1 + DEBOUNCE_TIME_MS ≤ t2 → t2 + DEBOUNCE_TIME_MS ≤ t3 →
      t3 + DEBOUNCE_TIME_MS ≤ t4 → t4 + DEBOUNCE_TIME_MS ≤ t5 →
      t2 < t1 + MULTI_PRESS_TIMEOUT_MS → t3 < t2 + MULTI_PRESS_TIMEOUT_MS →
      t4 < t3 + MULTI_PRESS_TIMEOUT_MS → t5 < t4 + MULTI_PRESS_TIMEOUT_MS →
      (runEvents s0 [Ev.irq t1]).work_pending = false ∧
      (runEvents s0 [Ev.irq t1, Ev.irq t2]).work_pending = false ∧
      (runEvents s0 [Ev.irq t1, Ev.irq t2, Ev.irq t3]).work_pending = false ∧
      (runEvents s0
        [Ev.irq t1, Ev.irq t2, Ev.irq t3, Ev.irq t4]).work_pending = false ∧
      (runEvents s0
        [Ev.irq t1, Ev.irq t2, Ev.irq t3, Ev.irq t4, Ev.irq t5]).press_count = 5 ∧
      (runEvents s0
        [Ev.irq t1, Ev.irq t2, Ev.irq t3, Ev.irq t4, Ev.irq t5]).work_pending = true ∧
      (runEvents s0
        [Ev.irq t1, Ev.irq t2, Ev.irq t3, Ev.irq t4, Ev.irq t5]).timer_armed = false ∧
      (∀ u, stepEv (runEvents s0
          [Ev.irq t1, Ev.irq t2, Ev.irq t3, Ev.irq t4, Ev.irq t5]) (Ev.tfire u) =
        runEvents s0 [Ev.irq t1, Ev.irq t2, Ev.irq t3, Ev.irq t4, Ev.irq t5]) ∧
      (stepEv (runEvents s0
          [Ev.irq t1, Ev.irq t2, Ev.irq t3, Ev.irq t4, Ev.irq t5]) Ev.wrun).processed_log =
        s0.processed_log ++ [5] ∧
      stepEv (stepEv (runEvents s0
          [Ev.irq t1, Ev.irq t2, Ev.irq t3, Ev.irq t4, Ev.irq t5]) Ev.wrun) Ev.wrun =
        stepEv (runEvents s0
          [Ev.irq t1, Ev.irq t2, Ev.irq t3, Ev.irq t4, Ev.irq t5]) Ev.wrun) ∧
    (∀ s : DriverState, s.timer_armed = true → s.work_pending = false →
      0 < s.press_count →
      (stepEv s (Ev.tfire s.timer_deadline)).work_pending = true ∧
      (stepEv s (Ev.tfire s.timer_deadline)).press_count = s.press_count ∧
      (stepEv s (Ev.tfire s.timer_deadline)).timer_armed = false ∧
      (stepEv (stepEv s (Ev.tfire s.timer_deadline)) Ev.wrun).processed_log =
        s.processed_log ++ [s.press_count] ∧
      stepEv (stepEv (stepEv s (Ev.tfire s.timer_deadline)) Ev.wrun) Ev.wrun =
        stepEv (stepEv s (Ev.tfire s.timer_deadline)) Ev.wrun) ∧
    (∀ (s : DriverState) (u : Nat), s.press_count = 0 →
      (stepEv s (Ev.tfire u)).work_pending = s.work_pending ∧
      (stepEv s (Ev.tfire u)).processed_log = s.processed_log) := by
  refine ⟨?_, ?_, ?_⟩
  · intro s0 t1 t2 t3 t4 t5 hpc hwp h01 h12 h23 h34 h45 hT2 hT3 hT4 hT5
    have e1 : stepEv s0 (Ev.irq t1) = gestureState s0 1 t1 :=
      irq_from_idle s0 t1 hpc h01
    have e2 : stepEv (gestureState s0 1 t1) (Ev.irq t2) = gestureState s0 2 t2 :=
      irq_from_gesture_small s0 1 t1 t2 h12 (by omega)
    have e3 : stepEv (gestureState s0 2 t2) (Ev.irq t3) = gestureState s0 3 t3 :=
      irq_from_gesture_small s0 2 t2 t3 h23 (by omega)
    have e4 : stepEv (gestureState s0 3 t3) (Ev.irq t4) = gestureState s0 4 t4 :=
      irq_from_gesture_small s0 3 t3 t4 h34 (by omega)
    have e5 : stepEv (gestureState s0 4 t4) (Ev.irq t5) =
        { gestureState s0 5 t5 with timer_armed := false
                                    work_pending := true } :=
      irq_from_gesture_cap s0 4 t4 t5 h45 (by omega)
    have r1 : runEvents s0 [Ev.irq t1] = gestureState s0 1 t1 := by
      simp only [runEvents, List.foldl]
      exact e1
    have r2 : runEvents s0 [Ev.irq t1, Ev.irq t2] = gestureState s0 2 t2 := by
      simp only [runEvents, List.foldl]
      rw [e1, e2]
    have r3 : runEvents s0 [Ev.irq t1, Ev.irq t2, Ev.irq t3] =
        gestureState s0 3 t3 := by
      simp only [runEvents, List.foldl]
      rw [e1, e2, e3]
    have r4 : runEvents s0 [Ev.irq t1, Ev.irq t2, Ev.irq t3, Ev.irq t4] =
        gestureState s0 4 t4 := by
      simp only [runEvents, List.foldl]
      rw [e1, e2, e3, e4]
    have r5 : runEvents s0 [Ev.irq t1, Ev.irq t2, Ev.irq t3, Ev.irq t4, Ev.irq t5] =
        { gestureState s0 5 t5 with timer_armed := false
                                    work_pending := true } := by
      simp only [runEvents, List.foldl]
      rw [e1, e2, e3, e4, e5]
    have S5wp : ({ gestureState s0 5 t5 with
        timer_armed := false, work_pending := true } : DriverState).work_pending
        = true := rfl
    refine ⟨?_, ?_, ?_, ?_, ?_, ?_, ?_, ?_, ?_, ?_⟩
    · rw [r1]
      exact hwp
    · rw [r2]
      exact hwp
    · rw [r3]
      exact hwp
    · rw [r4]
      exact hwp
    · rw [r5]
      exact rfl
    · rw [r5]
    · rw [r5]
    · intro u
      rw [r5]
      exact tfire_unarmed _ u rfl
    · rw [r5, wrun_pending _ S5wp]
      exact rfl
    · rw [r5, wrun_pending _ S5wp]
      exact wrun_not_pending _ rfl
  · intro s hta hwp hpos
    have ef : stepEv s (Ev.tfire s.timer_deadline) =
        { s with timer_armed := false, work_pending := true } := by
      rw [tfire_armed s hta]
      exact callback_pos { s with timer_armed := false } hpos
    have efwp : ({ s with
        timer_armed := false, work_pending := true } : DriverState).work_pending
        = true := rfl
    refine ⟨?_, ?_, ?_, ?_, ?_⟩
    · rw [ef]
    · rw [ef]
    · rw [ef]
    · rw [ef, wrun_pending _ efwp]
      exact rfl
    · rw [ef, wrun_pending _ efwp]
      exact wrun_not_pending _ rfl
  · intro s u h
    exact tfire_zero_count s u h

/-- C2 witness: the cap scenario at t=100..500 (one dispatch of 5, timer
cancelled), a timeout firing at the 3-press pending state, and a firing
with zero count. -/
theorem C2_exactly_one_dispatch_witness :
    (runEvents initState
      [Ev.irq 100, Ev.irq 200, Ev.irq 300, Ev.irq 400, Ev.irq 500]).press_count
        = 5 ∧
    (runEvents initState
      [Ev.irq 100, Ev.irq 200, Ev.irq 300, Ev.irq 400]).work_pending = false ∧
    stepEv (runEvents initState
      [Ev.irq 100, Ev.irq 200, Ev.irq 300, Ev.irq 400, Ev.irq 500]) (Ev.tfire 1500) =
      runEvents initState
        [Ev.irq 100, Ev.irq 200, Ev.irq 300, Ev.irq 400, Ev.irq 500] ∧
    (stepEv (runEvents initState
      [Ev.irq 100, Ev.irq 200, Ev.irq 300, Ev.irq 400, Ev.irq 500]) Ev.wrun).processed_log =
      initState.processed_log ++ [5] ∧
    (stepEv (gestureState initState 3 300)
      (Ev.tfire (gestureState initState 3 300).timer_deadline)).work_pending = true ∧
    (stepEv initState (Ev.tfire 77)).work_pending = initState.work_pending := by
  have h := C2_exactly_one_dispatch
  have h1 := h.1 initState 100 200 300 400 500 rfl rfl (by decide) (by decide)
    (by decide) (by decide) (by decide) (by decide) (by decide) (by decide)
    (by decide)
  exact ⟨h1.2.2.2.2.1, h1.2.2.2.1, h1.2.2.2.2.2.2.2.1 1500,
    h1.2.2.2.2.2.2.2.2.1,
    (h.2.1 (gestureState initState 3 300) rfl rfl (by decide)).1,
    (h.2.2 initState 77 rfl).1⟩
